import Mathlib

/-!
# Verification of the WebSocketChat server (`src/server.js`)

A shallow embedding of the chat server's in-memory state, its inbound-message
handler (`ws.on('message')`), its close handler (`ws.on('close')`) and its
fan-out helpers (`broadcast`, `sendToClient`), followed by theorems settling
the specification claims.

Modelling conventions:
* `uuidv4()` is modelled by a fresh-counter field `nextUuid` in the server
  state; each call consumes one counter value, so ids issued later are
  distinct from all ids issued earlier.
* `new Date().toISOString()` is modelled by a clock field `now` that the
  handlers read but never change.
* A WebSocket is a `Client` record carrying the per-connection mutable
  fields the code uses: `ws.isLoggedIn`, `ws.user`, and its readyState
  (only `OPEN` vs not-`OPEN` matters to the code).
* Side effects (`client.send(...)`, `ws.close()`) are returned as an ordered
  list of `Effect`s instead of performed.
* `JSON.parse(message)` throwing on unparseable input, and a property access
  on `undefined`, are modelled by `Except.error ()`: an uncaught exception
  escaping the handler.
-/

namespace WebSocketChat

/-- A user identity as built by the join case: `{ id, name, isAdmin }`. -/
structure User where
  id : Nat
  name : String
  isAdmin : Bool
deriving DecidableEq, Repr

/-- A chat message as built by the chatMessage case. -/
structure ChatMessage where
  id : Nat
  userId : Nat
  userName : String
  text : String
  timestamp : Nat
deriving DecidableEq, Repr

/-- A feature request as built by the featureRequest case. -/
structure FeatureRequest where
  id : Nat
  userId : Nat
  userName : String
  text : String
  timestamp : Nat
deriving DecidableEq, Repr

/-- A live WebSocket connection: its identity `cid`, the `ws.isLoggedIn`
flag, the `ws.user` slot, and whether `readyState === WebSocket.OPEN`. -/
structure Client where
  cid : Nat
  readyStateOpen : Bool
  isLoggedIn : Bool
  user : Option User
deriving DecidableEq, Repr

/-- The process-wide mutable state: the four in-memory stores, the set
`wss.clients`, the uuid freshness counter and the clock. -/
structure ServerState where
  connectedUsers : List User
  bannedUsers : List User
  messages : List ChatMessage
  featureRequests : List FeatureRequest
  clients : List Client
  nextUuid : Nat
  now : Nat
deriving DecidableEq, Repr

/-- The parsed inbound envelope `{ type, userName, password, text, userId,
requestId }`; fields not present in a given event type are ignored by the
switch, so defaulting them is harmless. -/
structure Data where
  type : String
  userName : String := ""
  password : String := ""
  text : String := ""
  userId : Nat := 0
  requestId : Nat := 0
deriving DecidableEq, Repr

/-- An outbound envelope, one constructor per `type` the server sends. -/
inductive OutMsg where
  | alert (message : String)
  | banned (message : Option String)
  | joinSuccess (user : User)
  | chatHistory (messages : List ChatMessage)
  | newMessage (message : ChatMessage)
  | updateUserLists (connectedUsers bannedUsers : List User)
  | updateFeatureRequests (requests : List FeatureRequest)
deriving DecidableEq, Repr

/-- An observable side effect: a `send` to one connection, or a `close`. -/
inductive Effect where
  | sendTo (cid : Nat) (msg : OutMsg)
  | close (cid : Nat)
deriving DecidableEq, Repr

/-- `ADMIN_PASSWORD` constant. -/
def ADMIN_PASSWORD : String := "toor"

/-- `findUserById(userList, userId)`. -/
def findUserById (userList : List User) (userId : Nat) : Option User :=
  userList.find? (fun u => u.id == userId)

/-- `removeUserById(userList, userId)`. -/
def removeUserById (userList : List User) (userId : Nat) : List User :=
  userList.filter (fun u => u.id != userId)

/-- `broadcast(data, senderWs, toAdminsOnly)`: iterate `wss.clients`; skip
clients not in `OPEN` state; with `toAdminsOnly` send only to clients whose
`user` is set and an admin; otherwise send to every client except the
sender. -/
def broadcast (clients : List Client) (d : OutMsg) (senderWs : Option Nat)
    (toAdminsOnly : Bool) : List Effect :=
  clients.filterMap (fun c =>
    if c.readyStateOpen then
      if toAdminsOnly then
        if (c.user.map (fun u => u.isAdmin)).getD false then
          some (Effect.sendTo c.cid d)
        else
          none
      else if senderWs == some c.cid then
        none
      else
        some (Effect.sendTo c.cid d)
    else
      none)

/-- `sendToClient(clientWs, data)`: send only when the target exists and is
in `OPEN` state. -/
def sendToClient (clientWs : Option Client) (d : OutMsg) : List Effect :=
  match clientWs with
  | some c => if c.readyStateOpen then [Effect.sendTo c.cid d] else []
  | none => []

/-- Replace the mutable per-connection fields of the client `cid` inside
`wss.clients` (JS mutates the shared `ws` object in place). -/
def updateClient (clients : List Client) (cid : Nat) (f : Client → Client) :
    List Client :=
  clients.map (fun c => if c.cid == cid then f c else c)

/-- The body of `ws.on('message', ...)`. The raw payload arrives already
split into `none` (unparseable: `JSON.parse` throws, uncaught — `Except.error`)
or `some data`. Returns the new state, the new value of the handling `ws`
(JS mutates it in place), and the ordered effects. -/
def handleMessage (st : ServerState) (ws : Client) (raw : Option Data) :
    Except Unit (ServerState × Client × List Effect) :=
  match raw with
  | none => Except.error ()
  | some data =>
    if !ws.isLoggedIn && data.type != "join" then
      Except.ok (st, ws, sendToClient (some ws)
        (OutMsg.alert "You must join the chat first."))
    else if data.type == "join" then
      let userId := st.nextUuid
      let st1 := { st with nextUuid := st.nextUuid + 1 }
      let userName := data.userName
      let password := data.password
      let isUserBanned := st1.bannedUsers.any (fun b => b.name == userName)
      if isUserBanned then
        Except.ok (st1, ws,
          sendToClient (some ws)
            (OutMsg.banned (some "You are banned from this chat."))
          ++ [Effect.close ws.cid])
      else if userName == "ADMIN" && password == ADMIN_PASSWORD then
        let u : User := { id := userId, name := "ADMIN", isAdmin := true }
        let ws2 := { ws with user := some u, isLoggedIn := true }
        let st2 :=
          { st1 with
            clients := updateClient st1.clients ws.cid
              (fun c => { c with user := some u, isLoggedIn := true })
            connectedUsers := st1.connectedUsers ++ [u] }
        Except.ok (st2, ws2,
          sendToClient (some ws2) (OutMsg.joinSuccess u)
          ++ sendToClient (some ws2) (OutMsg.chatHistory st2.messages)
          ++ sendToClient (some ws2)
               (OutMsg.updateFeatureRequests st2.featureRequests)
          ++ broadcast st2.clients
               (OutMsg.updateUserLists st2.connectedUsers st2.bannedUsers)
               none false)
      else if userName == "ADMIN" && password != ADMIN_PASSWORD then
        Except.ok (st1, ws,
          sendToClient (some ws) (OutMsg.alert "Incorrect admin password.")
          ++ [Effect.close ws.cid])
      else
        let u : User := { id := userId, name := userName, isAdmin := false }
        let ws2 := { ws with user := some u, isLoggedIn := true }
        let st2 :=
          { st1 with
            clients := updateClient st1.clients ws.cid
              (fun c => { c with user := some u, isLoggedIn := true })
            connectedUsers := st1.connectedUsers ++ [u] }
        Except.ok (st2, ws2,
          sendToClient (some ws2) (OutMsg.joinSuccess u)
          ++ sendToClient (some ws2) (OutMsg.chatHistory st2.messages)
          ++ broadcast st2.clients
               (OutMsg.updateUserLists st2.connectedUsers st2.bannedUsers)
               none false)
    else if data.type == "chatMessage" then
      match ws.user with
      | none => Except.error ()
      | some u =>
        let m : ChatMessage :=
          { id := st.nextUuid
            userId := u.id
            userName := u.name
            text := data.text
            timestamp := st.now }
        let st1 :=
          { st with
            nextUuid := st.nextUuid + 1
            messages := st.messages ++ [m] }
        Except.ok (st1, ws,
          broadcast st1.clients (OutMsg.newMessage m) none false)
    else if data.type == "banUser" then
      match ws.user with
      | none => Except.error ()
      | some u =>
        if u.isAdmin then
          match findUserById st.connectedUsers data.userId with
          | some userToBan =>
            let st1 :=
              { st with
                bannedUsers := st.bannedUsers ++ [userToBan]
                connectedUsers := removeUserById st.connectedUsers data.userId }
            let bannedClientWs := st1.clients.find? (fun c =>
              ((c.user.map (fun cu => cu.id == data.userId)).getD false))
            let effs1 := match bannedClientWs with
              | some bc =>
                sendToClient (some bc) (OutMsg.banned none)
                ++ [Effect.close bc.cid]
              | none => []
            Except.ok (st1, ws, effs1
              ++ broadcast st1.clients
                   (OutMsg.updateUserLists st1.connectedUsers st1.bannedUsers)
                   none false)
          | none => Except.ok (st, ws, [])
        else
          Except.ok (st, ws, sendToClient (some ws)
            (OutMsg.alert "You are not authorized to perform this action."))
    else if data.type == "unbanUser" then
      match ws.user with
      | none => Except.error ()
      | some u =>
        if u.isAdmin then
          match findUserById st.bannedUsers data.userId with
          | some _ =>
            let st1 :=
              { st with
                bannedUsers := removeUserById st.bannedUsers data.userId }
            Except.ok (st1, ws,
              broadcast st1.clients
                (OutMsg.updateUserLists st1.connectedUsers st1.bannedUsers)
                none false)
          | none => Except.ok (st, ws, [])
        else
          Except.ok (st, ws, sendToClient (some ws)
            (OutMsg.alert "You are not authorized to perform this action."))
    else if data.type == "featureRequest" then
      match ws.user with
      | none => Except.error ()
      | some u =>
        if u.isAdmin then
          Except.ok (st, ws, sendToClient (some ws)
            (OutMsg.alert "Admins cannot submit feature requests."))
        else
          let r : FeatureRequest :=
            { id := st.nextUuid
              userId := u.id
              userName := u.name
              text := data.text
              timestamp := st.now }
          let st1 :=
            { st with
              nextUuid := st.nextUuid + 1
              featureRequests := st.featureRequests ++ [r] }
          Except.ok (st1, ws,
            broadcast st1.clients
              (OutMsg.updateFeatureRequests st1.featureRequests) none true)
    else if data.type == "deleteFeatureRequest" then
      match ws.user with
      | none => Except.error ()
      | some u =>
        if u.isAdmin then
          let st1 :=
            { st with
              featureRequests :=
                st.featureRequests.filter (fun r => r.id != data.requestId) }
          Except.ok (st1, ws,
            broadcast st1.clients
              (OutMsg.updateFeatureRequests st1.featureRequests) none true)
        else
          Except.ok (st, ws, sendToClient (some ws)
            (OutMsg.alert "You are not authorized to perform this action."))
    else
      Except.ok (st, ws, [])

/-- The body of `ws.on('close', ...)`: if `ws.user` is set, remove it from
the connected set by id and broadcast the new user lists. -/
def handleClose (st : ServerState) (ws : Client) :
    ServerState × List Effect :=
  match ws.user with
  | some u =>
    let st1 :=
      { st with
        connectedUsers := removeUserById st.connectedUsers u.id }
    (st1,
      broadcast st1.clients
        (OutMsg.updateUserLists st1.connectedUsers st1.bannedUsers)
        none false)
  | none => (st, [])

/-! ## Result projections and observation helpers -/

/-- The server state of a non-throwing handler run. -/
def okState : Except Unit (ServerState × Client × List Effect) → Option ServerState
  | Except.ok (st, _, _) => some st
  | Except.error _ => none

/-- The handling connection after a non-throwing handler run. -/
def okClient : Except Unit (ServerState × Client × List Effect) → Option Client
  | Except.ok (_, ws, _) => some ws
  | Except.error _ => none

/-- The effects of a non-throwing handler run (a throwing run performs its
side effects up to the throw; none of the claims concern those). -/
def okEffects : Except Unit (ServerState × Client × List Effect) → List Effect
  | Except.ok (_, _, effs) => effs
  | Except.error _ => []

/-- The connection an effect is addressed to. -/
def effectCid : Effect → Nat
  | Effect.sendTo c _ => c
  | Effect.close c => c

/-- Whether an effect is one of the join-rejection shapes the server can
produce: an `alert`, a `banned` notice, or a close. -/
def isRejectionEffect : Effect → Bool
  | Effect.sendTo _ (OutMsg.alert _) => true
  | Effect.sendTo _ (OutMsg.banned _) => true
  | Effect.close _ => true
  | _ => false

/-- Run a message handler event and, on a non-throwing run, run the close
handler of the resulting connection against the resulting state, observing
the final connected set (the join-then-disconnect scenario). -/
def joinThenClose (st : ServerState) (ws : Client) (d : Data) :
    Option (List User) :=
  match handleMessage st ws (some d) with
  | Except.ok (st', ws', _) => some ((handleClose st' ws').1.connectedUsers)
  | Except.error _ => none

/-! ## Concrete fixtures used by counterexamples and witnesses -/

/-- A connected regular user. -/
def alice : User := { id := 10, name := "Alice", isAdmin := false }

/-- A connected administrator. -/
def adminUser : User := { id := 11, name := "ADMIN", isAdmin := true }

/-- A banned user. -/
def bob : User := { id := 12, name := "Bob", isAdmin := false }

/-- The open connection bound to `alice`. -/
def aliceWs : Client :=
  { cid := 1, readyStateOpen := true, isLoggedIn := true, user := some alice }

/-- An open, not-yet-joined connection. -/
def freshWs : Client :=
  { cid := 2, readyStateOpen := true, isLoggedIn := false, user := none }

/-- The open connection bound to `adminUser`. -/
def adminWs : Client :=
  { cid := 3, readyStateOpen := true, isLoggedIn := true, user := some adminUser }

/-- A reachable concrete state: `alice` and `adminUser` joined, `bob` was
banned, one chat message and one feature request exist, a fresh connection
is open. -/
def baseState : ServerState :=
  { connectedUsers := [alice, adminUser]
    bannedUsers := [bob]
    messages := [{ id := 5, userId := 10, userName := "Alice", text := "hi",
                   timestamp := 3 }]
    featureRequests := [{ id := 6, userId := 10, userName := "Alice",
                          text := "emoji", timestamp := 4 }]
    clients := [aliceWs, freshWs, adminWs]
    nextUuid := 20
    now := 7 }

/-! ## General lemmas about the handler -/

/-- Any non-`unbanUser` event that completes without throwing preserves
membership of the ban list: the only removal from `bannedUsers` in the
whole handler is in the `unbanUser` case. -/
theorem bannedUsers_monotone (st : ServerState) (ws : Client) (d : Data)
    (st' : ServerState) (ws' : Client) (effs : List Effect)
    (hne : d.type ≠ "unbanUser")
    (h : handleMessage st ws (some d) = Except.ok (st', ws', effs))
    (b : User) (hb : b ∈ st.bannedUsers) : b ∈ st'.bannedUsers := by
  simp only [handleMessage] at h
  repeat' split at h
  all_goals
    try (injection h with h; injection h with h1 h; injection h with h2 h3;
         subst h1)
  all_goals simp_all [List.mem_append]

/-- `broadcast` with `toAdminsOnly = true` sends exactly to the open clients
whose bound user is an admin, in client-list order. -/
theorem broadcast_adminsOnly (clients : List Client) (d : OutMsg) :
    broadcast clients d none true =
      (clients.filter (fun c => c.readyStateOpen &&
        (c.user.map (fun u => u.isAdmin)).getD false)).map
        (fun c => Effect.sendTo c.cid d) := by
  induction clients with
  | nil => rfl
  | cons c cs ih =>
    by_cases h1 : c.readyStateOpen <;>
      by_cases h2 : ((c.user.map (fun u => u.isAdmin)).getD false) = true <;>
        simp_all [broadcast, List.filter_cons]

/-! ## Claim theorems -/

/-- C1 (amended): a join whose `userName` equals the name of a currently
connected identity is NOT rejected. Provided the name is not banned and is
not the reserved name "ADMIN", the join succeeds: a fresh identity with the
duplicate name is appended to the connected set, the connection is bound to
it, and the caller receives `joinSuccess`. The code has no name-uniqueness
check at all. -/
theorem join_with_taken_name_succeeds (st : ServerState) (ws : Client)
    (d : Data)
    (hdup : ∃ v ∈ st.connectedUsers, v.name = d.userName)
    (ht : d.type = "join")
    (hb : ∀ x ∈ st.bannedUsers, x.name ≠ d.userName)
    (hn : d.userName ≠ "ADMIN")
    (hopen : ws.readyStateOpen = true) :
    (okState (handleMessage st ws (some d))).map ServerState.connectedUsers
        = some (st.connectedUsers
            ++ [{ id := st.nextUuid, name := d.userName, isAdmin := false }]) ∧
    (okClient (handleMessage st ws (some d))).map Client.user
        = some (some { id := st.nextUuid, name := d.userName,
                       isAdmin := false }) ∧
    Effect.sendTo ws.cid (OutMsg.joinSuccess
        { id := st.nextUuid, name := d.userName, isAdmin := false })
      ∈ okEffects (handleMessage st ws (some d)) := by
  have hb' : (st.bannedUsers.any fun x => x.name == d.userName) = false := by
    simp only [List.any_eq_false, beq_iff_eq]
    exact hb
  have hn' : (d.userName == "ADMIN") = false := by
    simp [hn]
  simp [handleMessage, ht, hb', hn', okState, okClient, okEffects,
    sendToClient, hopen]

/-- C2: a banned name can never bind. Whenever some ban record `b` is in
the ban list, (1) a join for `b.name` is rejected: the state keeps its
connected set, clients and ban list (only the consumed uuid counter moves),
the connection stays unbound, and the caller is sent the banned notice and
closed; (2) any other non-`unbanUser` event that completes keeps `b`
banned; (3) a connection close keeps `b` banned. So the rejection holds in
every reachable state until an `unbanUser` removes the record. -/
theorem banned_name_never_binds (st : ServerState) (ws : Client) (b : User)
    (d dAny : Data) (st₂ : ServerState) (ws₂ : Client) (effs₂ : List Effect)
    (hb : b ∈ st.bannedUsers)
    (ht : d.type = "join") (hn : d.userName = b.name)
    (hne : dAny.type ≠ "unbanUser")
    (h2 : handleMessage st ws (some dAny) = Except.ok (st₂, ws₂, effs₂)) :
    handleMessage st ws (some d) =
      Except.ok ({ st with nextUuid := st.nextUuid + 1 }, ws,
        sendToClient (some ws)
          (OutMsg.banned (some "You are banned from this chat."))
        ++ [Effect.close ws.cid]) ∧
    b ∈ st₂.bannedUsers ∧
    b ∈ (handleClose st ws).1.bannedUsers := by
  refine ⟨?_, bannedUsers_monotone st ws dAny st₂ ws₂ effs₂ hne h2 b hb, ?_⟩
  · have hban : (st.bannedUsers.any fun x => x.name == d.userName) = true :=
      List.any_eq_true.mpr ⟨b, hb, by simp [hn]⟩
    simp [handleMessage, ht, hban]
  · cases hws : ws.user <;> simp [handleClose, hws, hb]

/-- C3 (amended): a join arriving on an already-bound connection is NOT
rejected: the guard only blocks non-join messages from unbound connections,
so the join is processed like any other. For a non-banned non-"ADMIN" name
it succeeds, rebinds the connection to a fresh identity, appends that
identity to the connected set, and leaves the previously bound identity in
the connected set. -/
theorem rejoin_on_bound_connection_succeeds (st : ServerState) (ws : Client)
    (u : User) (d : Data)
    (hL : ws.isLoggedIn = true) (hu : ws.user = some u)
    (hmem : u ∈ st.connectedUsers)
    (ht : d.type = "join")
    (hb : ∀ x ∈ st.bannedUsers, x.name ≠ d.userName)
    (hn : d.userName ≠ "ADMIN")
    (hopen : ws.readyStateOpen = true) :
    (okState (handleMessage st ws (some d))).map ServerState.connectedUsers
        = some (st.connectedUsers
            ++ [{ id := st.nextUuid, name := d.userName, isAdmin := false }]) ∧
    (okClient (handleMessage st ws (some d))).map Client.user
        = some (some { id := st.nextUuid, name := d.userName,
                       isAdmin := false }) ∧
    (okState (handleMessage st ws (some d))).map
        (fun s => s.connectedUsers.contains u) = some true ∧
    Effect.sendTo ws.cid (OutMsg.joinSuccess
        { id := st.nextUuid, name := d.userName, isAdmin := false })
      ∈ okEffects (handleMessage st ws (some d)) := by
  have hb' : (st.bannedUsers.any fun x => x.name == d.userName) = false := by
    simp only [List.any_eq_false, beq_iff_eq]
    exact hb
  have hn' : (d.userName == "ADMIN") = false := by
    simp [hn]
  simp [handleMessage, ht, hb', hn', okState, okClient, okEffects,
    sendToClient, hopen, List.contains_eq_any_beq, List.any_eq_true]
  exact Or.inl hmem

/-- C4 (amended): the reserved administrator name in the code is "ADMIN",
not "Admin". For every join with `userName = "ADMIN"` (not banned) and a
password different from the configured secret, the caller receives the
incorrect-admin-password alert, the connection is closed, and no identity
is registered: the state keeps its connected set, ban list and clients;
only the consumed uuid counter moves. -/
theorem admin_wrong_password_rejected (st : ServerState) (ws : Client)
    (d : Data)
    (ht : d.type = "join") (hnm : d.userName = "ADMIN")
    (hp : d.password ≠ ADMIN_PASSWORD)
    (hb : ∀ x ∈ st.bannedUsers, x.name ≠ "ADMIN")
    (hopen : ws.readyStateOpen = true) :
    handleMessage st ws (some d) =
      Except.ok ({ st with nextUuid := st.nextUuid + 1 }, ws,
        [Effect.sendTo ws.cid (OutMsg.alert "Incorrect admin password."),
         Effect.close ws.cid]) := by
  have hb' : (st.bannedUsers.any fun x => x.name == d.userName) = false := by
    simp only [List.any_eq_false, beq_iff_eq, hnm]
    exact hb
  simp [handleMessage, ht, hnm, hp, hb', sendToClient, hopen]
  exact hb

/-- C5 (code is wrong): an unparseable payload makes the message handler
throw. `JSON.parse(message)` is the first statement of the handler and is
not wrapped in any try/catch, so the exception escapes the handler instead
of being logged and dropped; an exception escaping an event listener in the
Node runtime terminates the process. -/
theorem malformed_payload_throws (st : ServerState) (ws : Client) :
    handleMessage st ws none = Except.error () := rfl

/-- C6 (amended): a bound non-admin invoking `banUser`, `unbanUser` or
`deleteFeatureRequest` leaves the whole shared state unchanged and receives
exactly one unauthorized alert, with nothing broadcast to anyone else; but
`adminMessage` and `clearChat` have no handler at all — they fall into the
default arm, which leaves the state unchanged and sends NO alert. -/
theorem non_admin_gated_actions (st : ServerState) (ws : Client) (u : User)
    (dBan dUnban dDel dAdm dClear : Data)
    (hL : ws.isLoggedIn = true) (hu : ws.user = some u)
    (ha : u.isAdmin = false) (hopen : ws.readyStateOpen = true)
    (h1 : dBan.type = "banUser") (h2 : dUnban.type = "unbanUser")
    (h3 : dDel.type = "deleteFeatureRequest")
    (h4 : dAdm.type = "adminMessage") (h5 : dClear.type = "clearChat") :
    handleMessage st ws (some dBan) = Except.ok (st, ws,
      [Effect.sendTo ws.cid
        (OutMsg.alert "You are not authorized to perform this action.")]) ∧
    handleMessage st ws (some dUnban) = Except.ok (st, ws,
      [Effect.sendTo ws.cid
        (OutMsg.alert "You are not authorized to perform this action.")]) ∧
    handleMessage st ws (some dDel) = Except.ok (st, ws,
      [Effect.sendTo ws.cid
        (OutMsg.alert "You are not authorized to perform this action.")]) ∧
    handleMessage st ws (some dAdm) = Except.ok (st, ws, []) ∧
    handleMessage st ws (some dClear) = Except.ok (st, ws, []) := by
  refine ⟨?_, ?_, ?_, ?_, ?_⟩ <;>
    simp [handleMessage, h1, h2, h3, h4, h5, hL, hu, ha, sendToClient, hopen]

/-- C7 (amended): there is no `clearChat` handler. A `clearChat` event from
any logged-in connection (in particular an admin) falls into the default
arm: the message log is left unchanged — not truncated — and no client is
notified of anything. -/
theorem clearChat_has_no_handler (st : ServerState) (ws : Client) (d : Data)
    (hL : ws.isLoggedIn = true) (ht : d.type = "clearChat") :
    handleMessage st ws (some d) = Except.ok (st, ws, []) := by
  simp [handleMessage, ht, hL]

/-- C8 (amended): a join failing with the incorrect-admin-password reason
leaves the connection unbound (the connection record is returned unchanged,
still not logged in) but the connection does NOT remain open: the server
closes it right after sending the alert, so the client cannot retry on the
same connection. (The other failure of the original claim, "name taken",
does not exist in the code: duplicate names are accepted.) -/
theorem failed_join_closes_connection (st : ServerState) (ws : Client)
    (d : Data)
    (hU : ws.isLoggedIn = false) (hopen : ws.readyStateOpen = true)
    (ht : d.type = "join") (hnm : d.userName = "ADMIN")
    (hp : d.password ≠ ADMIN_PASSWORD)
    (hb : ∀ x ∈ st.bannedUsers, x.name ≠ "ADMIN") :
    handleMessage st ws (some d) =
      Except.ok ({ st with nextUuid := st.nextUuid + 1 }, ws,
        [Effect.sendTo ws.cid (OutMsg.alert "Incorrect admin password."),
         Effect.close ws.cid]) ∧
    (okClient (handleMessage st ws (some d))).map Client.isLoggedIn
        = some false ∧
    Effect.close ws.cid ∈ okEffects (handleMessage st ws (some d)) := by
  have hb' : (st.bannedUsers.any fun x => x.name == d.userName) = false := by
    simp only [List.any_eq_false, beq_iff_eq, hnm]
    exact hb
  have hr : handleMessage st ws (some d) =
      Except.ok ({ st with nextUuid := st.nextUuid + 1 }, ws,
        [Effect.sendTo ws.cid (OutMsg.alert "Incorrect admin password."),
         Effect.close ws.cid]) := by
    simp [handleMessage, ht, hnm, hp, hb', sendToClient, hopen]
    exact hb
  refine ⟨hr, ?_, ?_⟩ <;> simp [hr, okClient, okEffects, hU]

/-- C9: a `featureRequest` from a bound regular-role connection appends the
request to the feature-request queue, and the resulting
`updateFeatureRequests` is delivered exactly to the open connections whose
bound identity is an admin; no effect of the run is addressed to the
submitter's connection. -/
theorem featureRequest_goes_to_admins_only (st : ServerState) (ws : Client)
    (u : User) (d : Data)
    (hL : ws.isLoggedIn = true) (hu : ws.user = some u)
    (ha : u.isAdmin = false)
    (ht : d.type = "featureRequest")
    (hws : ∀ c ∈ st.clients, c.cid = ws.cid → c.user = some u) :
    (okState (handleMessage st ws (some d))).map ServerState.featureRequests
        = some (st.featureRequests
            ++ [{ id := st.nextUuid, userId := u.id, userName := u.name,
                  text := d.text, timestamp := st.now }]) ∧
    okEffects (handleMessage st ws (some d))
        = (st.clients.filter (fun c => c.readyStateOpen &&
             (c.user.map (fun v => v.isAdmin)).getD false)).map
            (fun c => Effect.sendTo c.cid (OutMsg.updateFeatureRequests
              (st.featureRequests
                ++ [{ id := st.nextUuid, userId := u.id, userName := u.name,
                      text := d.text, timestamp := st.now }]))) ∧
    ((okEffects (handleMessage st ws (some d))).all
        (fun e => effectCid e != ws.cid)) = true := by
  have hr := broadcast_adminsOnly st.clients
    (OutMsg.updateFeatureRequests
      (st.featureRequests
        ++ [{ id := st.nextUuid, userId := u.id, userName := u.name,
              text := d.text, timestamp := st.now }]))
  have hrun : okEffects (handleMessage st ws (some d))
      = broadcast st.clients
          (OutMsg.updateFeatureRequests
            (st.featureRequests
              ++ [{ id := st.nextUuid, userId := u.id, userName := u.name,
                    text := d.text, timestamp := st.now }])) none true := by
    simp [handleMessage, ht, hL, hu, ha, okEffects]
  refine ⟨?_, ?_, ?_⟩
  · simp [handleMessage, ht, hL, hu, ha, okState]
  · rw [hrun, hr]
  · rw [hrun, hr]
    simp only [List.all_eq_true, List.mem_map]
    rintro e ⟨c, hcmem, rfl⟩
    have hcm := List.mem_of_mem_filter hcmem
    have hcf := List.of_mem_filter hcmem
    simp only [Bool.and_eq_true] at hcf
    have hcid : c.cid ≠ ws.cid := by
      intro hceq
      have hcu := hws c hcm hceq
      rw [hcu] at hcf
      simp [ha] at hcf
    simpa [effectCid] using hcid

/-- C10: when a bound connection closes, exactly the identity currently
bound to it — matched by id — is removed from the connected set (the bound
user itself is gone, every user with a different id stays). Moreover, after
a further successful join rebinds the connection to a fresh identity, the
close removes only that fresh identity: the full previous connected set,
including the replaced identity, survives the close. -/
theorem close_removes_exactly_bound_identity (st : ServerState)
    (ws : Client) (u : User) (d : Data)
    (hu : ws.user = some u)
    (hfresh : ∀ v ∈ st.connectedUsers, v.id < st.nextUuid)
    (hmem : u ∈ st.connectedUsers)
    (ht : d.type = "join")
    (hb : ∀ x ∈ st.bannedUsers, x.name ≠ d.userName)
    (hn : d.userName ≠ "ADMIN") :
    (handleClose st ws).1.connectedUsers
        = st.connectedUsers.filter (fun v => v.id != u.id) ∧
    u ∉ (handleClose st ws).1.connectedUsers ∧
    joinThenClose st ws d = some st.connectedUsers := by
  have hb' : (st.bannedUsers.any fun x => x.name == d.userName) = false := by
    simp only [List.any_eq_false, beq_iff_eq]
    exact hb
  have hn' : (d.userName == "ADMIN") = false := by
    simp [hn]
  have hself : st.connectedUsers.filter (fun v => v.id != st.nextUuid)
      = st.connectedUsers := by
    rw [List.filter_eq_self]
    intro v hv
    simp [Nat.ne_of_lt (hfresh v hv)]
  refine ⟨?_, ?_, ?_⟩
  · simp [handleClose, hu, removeUserById]
  · simp [handleClose, hu, removeUserById, List.mem_filter]
  · simp [joinThenClose, handleMessage, ht, hb', hn', handleClose,
      removeUserById, List.filter_append, hself]

/-! ## Counterexamples -/

/-- Counterexample for C1: in `baseState` the name "Alice" already belongs
to a connected identity, yet a join with `userName = "Alice"` on the fresh
connection is not rejected — the connected set grows to two identities
named "Alice", and no rejection-shaped effect (alert, banned notice or
close) is produced. -/
theorem duplicate_name_join_counterexample :
    (baseState.connectedUsers.map User.name).contains "Alice" = true ∧
    (okState (handleMessage baseState freshWs
        (some { type := "join", userName := "Alice" }))).map
      (fun s => s.connectedUsers.map User.name)
      = some ["Alice", "ADMIN", "Alice"] ∧
    (okEffects (handleMessage baseState freshWs
        (some { type := "join", userName := "Alice" }))).filter
        isRejectionEffect
      = [] := by decide

/-- Counterexample for C3: `aliceWs` is already bound, yet a second join on
it is not rejected with any AlreadyBound failure: the connected set grows
by a new identity "Carol", the connection's bound identity changes, and no
rejection-shaped effect is produced. -/
theorem second_join_on_bound_connection_counterexample :
    aliceWs.isLoggedIn = true ∧
    (okState (handleMessage baseState aliceWs
        (some { type := "join", userName := "Carol" }))).map
      (fun s => s.connectedUsers.map User.name)
      = some ["Alice", "ADMIN", "Carol"] ∧
    (okClient (handleMessage baseState aliceWs
        (some { type := "join", userName := "Carol" }))).map Client.user
      = some (some { id := 20, name := "Carol", isAdmin := false }) ∧
    (okEffects (handleMessage baseState aliceWs
        (some { type := "join", userName := "Carol" }))).filter
        isRejectionEffect
      = [] := by decide

/-- Counterexample for C4: a join with `userName = "Admin"` (the claim's
spelling) and a wrong password is NOT rejected: the code's reserved name is
the upper-case "ADMIN", so "Admin" falls into the unconditional regular
branch — an identity named "Admin" is registered in the connected set and
no alert or close is produced. -/
theorem mixed_case_admin_join_counterexample :
    (okState (handleMessage baseState freshWs
        (some { type := "join", userName := "Admin",
                password := "wrong" }))).map
      (fun s => s.connectedUsers.map User.name)
      = some ["Alice", "ADMIN", "Admin"] ∧
    (okEffects (handleMessage baseState freshWs
        (some { type := "join", userName := "Admin",
                password := "wrong" }))).filter isRejectionEffect
      = [] := by decide

/-- Counterexample for C6: a bound non-admin sending `clearChat` — one of
the admin-gated actions the claim enumerates — receives NO alert at all
(the event has no handler and falls into the default arm), contradicting
"the caller receives exactly one Unauthorized-class alert". -/
theorem non_admin_clearChat_no_alert_counterexample :
    handleMessage baseState aliceWs (some { type := "clearChat" })
      = Except.ok (baseState, aliceWs, []) ∧
    alice.isAdmin = false := ⟨rfl, rfl⟩

/-- Counterexample for C7: an admin sending `clearChat` over a non-empty
message log leaves the state — in particular the message log — completely
unchanged and notifies nobody: the log is not truncated to the empty
sequence. -/
theorem admin_clearChat_noop_counterexample :
    handleMessage baseState adminWs (some { type := "clearChat" })
      = Except.ok (baseState, adminWs, []) ∧
    baseState.messages ≠ [] := ⟨rfl, by decide⟩

/-- Counterexample for C8: a join failing with the incorrect-admin-password
reason does not leave the connection open for a retry — the effect list
ends with a close of the joining connection. -/
theorem wrong_password_close_counterexample :
    handleMessage baseState freshWs
        (some { type := "join", userName := "ADMIN", password := "wrong" })
      = Except.ok ({ baseState with nextUuid := 21 }, freshWs,
          [Effect.sendTo 2 (OutMsg.alert "Incorrect admin password."),
           Effect.close 2]) := rfl

/-! ## Witnesses -/

/-- Witness for C1 at a concrete input: "Alice" is connected in `baseState`
and a fresh connection joins as "Alice". -/
theorem join_with_taken_name_succeeds_witness :
    (okState (handleMessage baseState freshWs
        (some { type := "join", userName := "Alice" }))).map
      ServerState.connectedUsers
      = some (baseState.connectedUsers
          ++ [{ id := 20, name := "Alice", isAdmin := false }]) ∧
    (okClient (handleMessage baseState freshWs
        (some { type := "join", userName := "Alice" }))).map Client.user
      = some (some { id := 20, name := "Alice", isAdmin := false }) ∧
    Effect.sendTo 2 (OutMsg.joinSuccess
        { id := 20, name := "Alice", isAdmin := false })
      ∈ okEffects (handleMessage baseState freshWs
        (some { type := "join", userName := "Alice" })) :=
  join_with_taken_name_succeeds baseState freshWs
    { type := "join", userName := "Alice" }
    (by decide) rfl (by decide) (by decide) rfl

/-- Witness for C2 at a concrete input: `bob` is banned in `baseState`; a
join for "Bob" is rejected and closed, and `bob` stays banned across a
`chatMessage` event and across a close. -/
theorem banned_name_never_binds_witness :
    handleMessage baseState freshWs
        (some { type := "join", userName := "Bob" }) =
      Except.ok ({ baseState with nextUuid := baseState.nextUuid + 1 },
        freshWs,
        sendToClient (some freshWs)
          (OutMsg.banned (some "You are banned from this chat."))
        ++ [Effect.close freshWs.cid]) ∧
    bob ∈ baseState.bannedUsers ∧
    bob ∈ (handleClose baseState freshWs).1.bannedUsers :=
  banned_name_never_binds baseState freshWs bob
    { type := "join", userName := "Bob" } { type := "chatMessage" }
    baseState freshWs
    [Effect.sendTo 2 (OutMsg.alert "You must join the chat first.")]
    (by decide) rfl rfl (by decide) rfl

/-- Witness for C3 at a concrete input: the bound connection `aliceWs`
joins again as "Carol". -/
theorem rejoin_on_bound_connection_succeeds_witness :
    (okState (handleMessage baseState aliceWs
        (some { type := "join", userName := "Carol" }))).map
      ServerState.connectedUsers
      = some (baseState.connectedUsers
          ++ [{ id := 20, name := "Carol", isAdmin := false }]) ∧
    (okClient (handleMessage baseState aliceWs
        (some { type := "join", userName := "Carol" }))).map Client.user
      = some (some { id := 20, name := "Carol", isAdmin := false }) ∧
    (okState (handleMessage baseState aliceWs
        (some { type := "join", userName := "Carol" }))).map
      (fun s => s.connectedUsers.contains alice) = some true ∧
    Effect.sendTo 1 (OutMsg.joinSuccess
        { id := 20, name := "Carol", isAdmin := false })
      ∈ okEffects (handleMessage baseState aliceWs
        (some { type := "join", userName := "Carol" })) :=
  rejoin_on_bound_connection_succeeds baseState aliceWs alice
    { type := "join", userName := "Carol" }
    rfl rfl (by decide) rfl (by decide) (by decide) rfl

/-- Witness for C4 at a concrete input: a fresh connection joins as "ADMIN"
with the wrong password "wrong". -/
theorem admin_wrong_password_rejected_witness :
    handleMessage baseState freshWs
        (some { type := "join", userName := "ADMIN", password := "wrong" })
      = Except.ok ({ baseState with nextUuid := baseState.nextUuid + 1 },
          freshWs,
          [Effect.sendTo freshWs.cid
            (OutMsg.alert "Incorrect admin password."),
           Effect.close freshWs.cid]) :=
  admin_wrong_password_rejected baseState freshWs
    { type := "join", userName := "ADMIN", password := "wrong" }
    rfl rfl (by decide) (by decide) rfl

/-- Witness for C6 at a concrete input: the bound regular user `alice`
issues all five admin-gated actions. -/
theorem non_admin_gated_actions_witness :
    handleMessage baseState aliceWs (some { type := "banUser" })
      = Except.ok (baseState, aliceWs,
        [Effect.sendTo aliceWs.cid
          (OutMsg.alert "You are not authorized to perform this action.")]) ∧
    handleMessage baseState aliceWs (some { type := "unbanUser" })
      = Except.ok (baseState, aliceWs,
        [Effect.sendTo aliceWs.cid
          (OutMsg.alert "You are not authorized to perform this action.")]) ∧
    handleMessage baseState aliceWs (some { type := "deleteFeatureRequest" })
      = Except.ok (baseState, aliceWs,
        [Effect.sendTo aliceWs.cid
          (OutMsg.alert "You are not authorized to perform this action.")]) ∧
    handleMessage baseState aliceWs (some { type := "adminMessage" })
      = Except.ok (baseState, aliceWs, []) ∧
    handleMessage baseState aliceWs (some { type := "clearChat" })
      = Except.ok (baseState, aliceWs, []) :=
  non_admin_gated_actions baseState aliceWs alice
    { type := "banUser" } { type := "unbanUser" }
    { type := "deleteFeatureRequest" } { type := "adminMessage" }
    { type := "clearChat" }
    rfl rfl rfl rfl rfl rfl rfl rfl rfl

/-- Witness for C7 at a concrete input: the admin connection issues
`clearChat` over the non-empty log of `baseState`. -/
theorem clearChat_has_no_handler_witness :
    handleMessage baseState adminWs (some { type := "clearChat" })
      = Except.ok (baseState, adminWs, []) :=
  clearChat_has_no_handler baseState adminWs { type := "clearChat" } rfl rfl

/-- Witness for C8 at a concrete input: the unbound fresh connection joins
as "ADMIN" with the wrong password "pw". -/
theorem failed_join_closes_connection_witness :
    handleMessage baseState freshWs
        (some { type := "join", userName := "ADMIN", password := "pw" })
      = Except.ok ({ baseState with nextUuid := baseState.nextUuid + 1 },
          freshWs,
          [Effect.sendTo freshWs.cid
            (OutMsg.alert "Incorrect admin password."),
           Effect.close freshWs.cid]) ∧
    (okClient (handleMessage baseState freshWs
        (some { type := "join", userName := "ADMIN",
                password := "pw" }))).map Client.isLoggedIn = some false ∧
    Effect.close freshWs.cid ∈ okEffects (handleMessage baseState freshWs
        (some { type := "join", userName := "ADMIN", password := "pw" })) :=
  failed_join_closes_connection baseState freshWs
    { type := "join", userName := "ADMIN", password := "pw" }
    rfl rfl rfl rfl (by decide) (by decide)

/-- Witness for C9 at a concrete input: the bound regular user `alice`
submits a feature request while an admin connection is open. -/
theorem featureRequest_goes_to_admins_only_witness :
    (okState (handleMessage baseState aliceWs
        (some { type := "featureRequest", text := "dark mode" }))).map
      ServerState.featureRequests
      = some (baseState.featureRequests
          ++ [{ id := 20, userId := 10, userName := "Alice",
                text := "dark mode", timestamp := 7 }]) ∧
    okEffects (handleMessage baseState aliceWs
        (some { type := "featureRequest", text := "dark mode" }))
      = (baseState.clients.filter (fun c => c.readyStateOpen &&
           (c.user.map (fun v => v.isAdmin)).getD false)).map
          (fun c => Effect.sendTo c.cid (OutMsg.updateFeatureRequests
            (baseState.featureRequests
              ++ [{ id := 20, userId := 10, userName := "Alice",
                    text := "dark mode", timestamp := 7 }]))) ∧
    ((okEffects (handleMessage baseState aliceWs
        (some { type := "featureRequest", text := "dark mode" }))).all
      (fun e => effectCid e != aliceWs.cid)) = true :=
  featureRequest_goes_to_admins_only baseState aliceWs alice
    { type := "featureRequest", text := "dark mode" }
    rfl rfl rfl rfl (by decide)

/-- Witness for C10 at a concrete input: `aliceWs` is bound to `alice`; a
close removes exactly `alice`, and a rejoin as "Carol" followed by a close
restores exactly the previous connected set. -/
theorem close_removes_exactly_bound_identity_witness :
    (handleClose baseState aliceWs).1.connectedUsers
        = baseState.connectedUsers.filter (fun v => v.id != alice.id) ∧
    alice ∉ (handleClose baseState aliceWs).1.connectedUsers ∧
    joinThenClose baseState aliceWs { type := "join", userName := "Carol" }
        = some baseState.connectedUsers :=
  close_removes_exactly_bound_identity baseState aliceWs alice
    { type := "join", userName := "Carol" }
    rfl (by decide) (by decide) rfl (by decide) (by decide)

end WebSocketChat
